import Mathlib

/-!
Shallow embedding of the authentication core of the `accessible` repository:
the credential hasher (`auth_lib/security.py`), the token codec
(`auth_lib/jwt_utils.py`), the refresh-token store records
(`auth_lib/models.py`), the HTTP auth operations of the Flask variant
(`flaskDataApi/app/routes/auth.py`) and the FastAPI variant
(`fastDataApi/app/routers/auth.py`), and the authorization gates
(`fastDataApi/app/dependencies.py`, `flaskDataApi/app/decorators.py`).

Modelling conventions:
* Server time is a natural number of seconds (`datetime.utcnow()` at an
  instant); `timedelta` values become second counts.
* The JWT library (PyJWT) is an external collaborator modelled at its
  boundary: a token string is either a well-signed encoding of a claims
  payload (`TokenStr.signed`) or a string that fails signature /
  structure / algorithm checks (`TokenStr.garbage`).  PyJWT's expiry
  check (`_validate_exp`, zero leeway) treats a token as expired exactly
  when `exp <= now`.
* SHA-256 (`hashlib.sha256(...).hexdigest()` in `get_token_hash`) is
  idealized as injective, so a stored digest is represented by the
  unique token string it digests.
* bcrypt (via passlib's `CryptContext(schemes=["bcrypt"])`) is an
  external collaborator modelled at its boundary: it salts, it uses only
  the first 72 bytes of the UTF-8 password (passlib truncates longer
  passwords silently by default), and its digest is idealized as
  injective on (salt, effective input).  Passwords are modelled as their
  UTF-8 byte sequences (`List Nat`).
* `uuid.uuid4()` and `secrets.token_urlsafe(32)` draws are modelled by a
  monotone freshness counter `nextFresh` in the database state: each
  draw takes the current counter value (random values idealized as
  never colliding, which is what the spec says `jti` is for).
-/

set_option autoImplicit false

namespace AuthCore

/-- Roles, from `auth_lib/models.py` (`UserRole`): closed enumeration with
`USER = "user"` and `ADMIN = "admin"`. -/
inductive UserRole where
  | user
  | admin
deriving DecidableEq, Repr

/-- The wire string of a role (`UserRole.value` in Python). -/
def UserRole.value : UserRole → String
  | .user => "user"
  | .admin => "admin"

/-- Token-type discriminator, from `auth_lib/config.py`
(`TOKEN_TYPE_ACCESS = "access"`, `TOKEN_TYPE_REFRESH = "refresh"`). -/
inductive TokenType where
  | access
  | refresh
deriving DecidableEq, Repr

/-- The wire string of a token type. -/
def TokenType.value : TokenType → String
  | .access => "access"
  | .refresh => "refresh"

/-- A JWT claims payload, the union of the payload dicts built in
`create_access_token` and `create_refresh_token`
(`auth_lib/jwt_utils.py`): `sub`, `username`, `role`, `type`, `exp`,
`iat`, `jti`.  Access tokens carry meaningful `username`/`role` and a
dummy `jti`; refresh tokens carry a meaningful `jti` and dummy
`username`/`role`, matching the two payload shapes in the source. -/
structure Claims where
  sub : Nat
  username : String
  role : UserRole
  typ : TokenType
  exp : Nat
  iat : Nat
  jti : Nat
deriving DecidableEq, Repr

/-- A token string at the PyJWT boundary: either a well-signed encoding
of a claims payload, or a string rejected by signature/structure/
algorithm checks (`jwt.decode` raises `InvalidTokenError` on it). -/
inductive TokenStr where
  | signed (c : Claims)
  | garbage (s : String)
deriving DecidableEq, Repr

/-- A stored SHA-256 digest of a token string; SHA-256 is idealized as
injective, so a digest is represented by the token string it digests. -/
abbrev TokenHash := TokenStr

/-- `get_token_hash` from `auth_lib/jwt_utils.py`:
`hashlib.sha256(token.encode()).hexdigest()`, idealized as an injective
function of the token string. -/
def get_token_hash (token : TokenStr) : TokenHash := token

/-- Token errors raised by the codec (`auth_lib/jwt_utils.py`):
`ExpiredToken` and `InvalidToken`, each carrying its message. -/
inductive TokenErr where
  | expiredToken (msg : String)
  | invalidToken (msg : String)
deriving DecidableEq, Repr

/-- Config constants from `auth_lib/config.py` with their defaults:
`ACCESS_TOKEN_EXPIRE_MINUTES = 15`. -/
def ACCESS_TOKEN_EXPIRE_MINUTES : Nat := 15

/-- Access-token TTL in seconds (`ACCESS_TOKEN_EXPIRE =
timedelta(minutes=15)`). -/
def ACCESS_TOKEN_EXPIRE : Nat := ACCESS_TOKEN_EXPIRE_MINUTES * 60

/-- Refresh-token TTL in seconds: `timedelta(days=7)`
(`REFRESH_TOKEN_EXPIRE_DAYS = 7`, and the route handlers also write
`expires_at = datetime.utcnow() + timedelta(days=7)`). -/
def REFRESH_TOKEN_EXPIRE : Nat := 7 * 24 * 60 * 60

/-- `create_access_token` from `auth_lib/jwt_utils.py`: payload
`{sub, username, role, type: "access", exp: now + ttl, iat: now}`,
signed with the process secret.  The default TTL is
`ACCESS_TOKEN_EXPIRE`. -/
def create_access_token (user_id : Nat) (username : String) (role : UserRole)
    (now : Nat) : TokenStr :=
  .signed { sub := user_id, username := username, role := role,
            typ := .access, exp := now + ACCESS_TOKEN_EXPIRE, iat := now,
            jti := 0 }

/-- `create_refresh_token` from `auth_lib/jwt_utils.py`: payload
`{sub, type: "refresh", exp: now + ttl, iat: now, jti: random}`, signed,
returned together with its SHA-256 hash.  The random `jti`
(`secrets.token_urlsafe(32)`) is supplied by the caller's freshness
counter. -/
def create_refresh_token (user_id : Nat) (now : Nat) (jti : Nat) :
    TokenStr × TokenHash :=
  let tok : TokenStr :=
    .signed { sub := user_id, username := "", role := .user,
              typ := .refresh, exp := now + REFRESH_TOKEN_EXPIRE, iat := now,
              jti := jti }
  (tok, get_token_hash tok)

/-- `decode_token` from `auth_lib/jwt_utils.py`: `jwt.decode` with the
shared secret; `jwt.ExpiredSignatureError` (raised by PyJWT exactly when
`exp <= now`, zero leeway) becomes `ExpiredToken("Token has expired")`,
any other `InvalidTokenError` (bad signature, malformed structure,
unsupported algorithm) becomes `InvalidToken("Invalid token: ...")`. -/
def decode_token (token : TokenStr) (now : Nat) : Except TokenErr Claims :=
  match token with
  | .garbage s => .error (.invalidToken ("Invalid token: " ++ s))
  | .signed c =>
    if c.exp ≤ now then .error (.expiredToken "Token has expired")
    else .ok c

/-- `verify_token` from `auth_lib/jwt_utils.py`: decode, then raise
`InvalidToken(f"Expected {token_type} token, got {payload.get('type')}")`
when the decoded `type` claim differs from the expected one. -/
def verify_token (token : TokenStr) (token_type : TokenType) (now : Nat) :
    Except TokenErr Claims :=
  match decode_token token now with
  | .error e => .error e
  | .ok payload =>
    if payload.typ ≠ token_type then
      .error (.invalidToken ("Expected " ++ token_type.value ++
        " token, got " ++ payload.typ.value))
    else .ok payload

/-- A bcrypt digest as stored by `hash_password`
(`auth_lib/security.py`): a salt plus the digest of the effective input.
bcrypt uses only the first 72 bytes of the password and its digest is
idealized as injective on (salt, effective input), so the digest is
represented by the effective input itself. -/
structure BcryptHash where
  salt : Nat
  key : List Nat
deriving DecidableEq, Repr

/-- `hash_password` from `auth_lib/security.py`:
`pwd_context.hash(password)` with `schemes=["bcrypt"]`.  passlib's
bcrypt silently truncates the password to its first 72 bytes; the salt
is a fresh random value. -/
def hash_password (salt : Nat) (password : List Nat) : BcryptHash :=
  { salt := salt, key := password.take 72 }

/-- `verify_password` from `auth_lib/security.py`:
`pwd_context.verify(plain, hashed)` — recompute the digest of the
candidate's first 72 bytes under the stored salt and compare. -/
def verify_password (plain_password : List Nat) (hashed_password : BcryptHash) :
    Bool :=
  hash_password hashed_password.salt plain_password == hashed_password

/-- The `User` row from `auth_lib/models.py` (timestamps omitted: no
claim observes them). -/
structure UserRec where
  id : Nat
  username : String
  email : String
  password_hash : BcryptHash
  role : UserRole
  is_active : Bool
deriving DecidableEq, Repr

/-- The `RefreshToken` row from `auth_lib/models.py`. -/
structure RefreshTokenRec where
  id : Nat
  user_id : Nat
  token_hash : TokenHash
  expires_at : Nat
  created_at : Nat
  revoked : Bool
deriving DecidableEq, Repr

/-- `RefreshToken.is_valid` from `auth_lib/models.py`:
`not self.revoked and self.expires_at > datetime.utcnow()`. -/
def RefreshTokenRec.is_valid (r : RefreshTokenRec) (now : Nat) : Bool :=
  !r.revoked && decide (now < r.expires_at)

/-- The persisted auth database (`users` and `refresh_tokens` tables),
plus the freshness counter modelling random draws (uuid4, jti, salt). -/
structure AuthDB where
  users : List UserRec
  tokens : List RefreshTokenRec
  nextFresh : Nat
deriving DecidableEq, Repr

/-- `db.query(User).filter(User.username == username).first()`. -/
def findUserByUsername (db : AuthDB) (username : String) : Option UserRec :=
  db.users.find? (fun u => u.username == username)

/-- `db.query(User).filter(User.email == email).first()`. -/
def findUserByEmail (db : AuthDB) (email : String) : Option UserRec :=
  db.users.find? (fun u => u.email == email)

/-- `db.query(User).filter(User.id == user_id).first()`. -/
def findUserById (db : AuthDB) (user_id : Nat) : Option UserRec :=
  db.users.find? (fun u => u.id == user_id)

/-- The effect of `refresh_record.revoked = True` on the first row the
query returned: set `revoked` on the first record matching the filter,
leave the rest unchanged. -/
def revokeFirstMatch : List RefreshTokenRec → (RefreshTokenRec → Bool) →
    List RefreshTokenRec
  | [], _ => []
  | r :: rs, p =>
    if p r then { r with revoked := true } :: rs
    else r :: revokeFirstMatch rs p

/-- The token envelope returned by register/login/refresh
(`TokenResponse` in `auth_lib/schemas.py`). -/
structure TokenEnvelope where
  access_token : TokenStr
  refresh_token : TokenStr
  token_type : String
  expires_in : Nat
deriving DecidableEq, Repr

/-- Outcome of a Register call: 201 with tokens, 400 conflict, or an
unhandled exception surfacing as HTTP 500. -/
inductive RegisterResult where
  | created (env : TokenEnvelope)
  | conflict (detail : String)
  | serverError (msg : String)
deriving DecidableEq, Repr

/-- Outcome of a Login call: 200 with tokens, 401, 403, or an unhandled
exception surfacing as HTTP 500. -/
inductive LoginResult where
  | ok (env : TokenEnvelope)
  | unauthorized (detail : String)
  | forbidden (detail : String)
  | serverError (msg : String)
deriving DecidableEq, Repr

/-- Outcome of a Refresh call: 200 with tokens or 401. -/
inductive RefreshResult where
  | ok (env : TokenEnvelope)
  | unauthorized (detail : String)
deriving DecidableEq, Repr

/-- Whether a refresh outcome is an HTTP 401. -/
def RefreshResult.isUnauthorized : RefreshResult → Bool
  | .ok _ => false
  | .unauthorized _ => true

/-- Outcome of a Logout call: the handlers return HTTP 200 with a
message on every path. -/
inductive MessageResult where
  | success (message : String)
deriving DecidableEq, Repr

/-- `register` from `flaskDataApi/app/routes/auth.py`, with the step
between the two commits made fallible (`mintOk`): check username then
email for collision; commit the new user (first transaction); then —
only if the token-minting step does not raise — issue the access token
and the refresh token, commit the refresh record (second transaction),
and return the envelope.  When the minting step raises, the exception
propagates (HTTP 500) with the user already durably committed.
The new user gets `role := UserRole.USER` and `is_active := True`;
freshness draws: user id, bcrypt salt, then jti and record id. -/
def registerPhased (db : AuthDB) (username email : String)
    (password : List Nat) (now : Nat) (mintOk : Bool) :
    RegisterResult × AuthDB :=
  match findUserByUsername db username with
  | some _ => (.conflict "Username already registered", db)
  | none =>
  match findUserByEmail db email with
  | some _ => (.conflict "Email already registered", db)
  | none =>
    let new_user : UserRec :=
      { id := db.nextFresh, username := username, email := email,
        password_hash := hash_password (db.nextFresh + 1) password,
        role := .user, is_active := true }
    let db1 : AuthDB :=
      { db with users := db.users ++ [new_user],
                nextFresh := db.nextFresh + 2 }
    if mintOk then
      let access_token := create_access_token new_user.id username .user now
      let pair := create_refresh_token new_user.id now db1.nextFresh
      let refresh_token_record : RefreshTokenRec :=
        { id := db1.nextFresh + 1, user_id := new_user.id,
          token_hash := pair.2, expires_at := now + REFRESH_TOKEN_EXPIRE,
          created_at := now, revoked := false }
      (.created { access_token := access_token, refresh_token := pair.1,
                  token_type := "bearer",
                  expires_in := ACCESS_TOKEN_EXPIRE_MINUTES * 60 },
       { db1 with tokens := db1.tokens ++ [refresh_token_record],
                  nextFresh := db1.nextFresh + 2 })
    else
      (.serverError "token minting raised after the first commit", db1)

/-- The Flask `register`: the minting step succeeds (its
`create_access_token` / `create_refresh_token` / record insert are
straight-line code that does not raise). -/
def flaskRegister (db : AuthDB) (username email : String)
    (password : List Nat) (now : Nat) : RegisterResult × AuthDB :=
  registerPhased db username email password now true

/-- `register` from `fastDataApi/app/routers/auth.py`.  Identical checks
and first commit, but its minting step always raises: the handler
imports `datetime` via `from datetime import datetime` and then
evaluates `datetime.utcnow() + datetime.timedelta(days=7)` —
`datetime.timedelta` is an attribute lookup on the `datetime` class and
raises `AttributeError`, which propagates out of the handler as an HTTP
500; the new user remains committed, no refresh record is inserted and
no envelope is returned. -/
def fastRegister (db : AuthDB) (username email : String)
    (password : List Nat) (now : Nat) : RegisterResult × AuthDB :=
  registerPhased db username email password now false

/-- `login` from `flaskDataApi/app/routes/auth.py`:
`if not user or not verify_password(...)` yields a single 401 with one
message for both the missing-user and wrong-password cases; an inactive
user yields 403; otherwise mint and persist a fresh pair exactly as in
register (jti then record id drawn fresh). -/
def flaskLogin (db : AuthDB) (username : String) (password : List Nat)
    (now : Nat) : LoginResult × AuthDB :=
  match findUserByUsername db username with
  | none => (.unauthorized "Invalid username or password", db)
  | some user =>
    if !verify_password password user.password_hash then
      (.unauthorized "Invalid username or password", db)
    else if !user.is_active then
      (.forbidden "Account is disabled", db)
    else
      let access_token := create_access_token user.id user.username user.role now
      let pair := create_refresh_token user.id now db.nextFresh
      let refresh_token_record : RefreshTokenRec :=
        { id := db.nextFresh + 1, user_id := user.id, token_hash := pair.2,
          expires_at := now + REFRESH_TOKEN_EXPIRE, created_at := now,
          revoked := false }
      (.ok { access_token := access_token, refresh_token := pair.1,
             token_type := "bearer",
             expires_in := ACCESS_TOKEN_EXPIRE_MINUTES * 60 },
       { db with tokens := db.tokens ++ [refresh_token_record],
                 nextFresh := db.nextFresh + 2 })

/-- `login` from `fastDataApi/app/routers/auth.py`: the same three
checks with the same messages (the missing-user and wrong-password
branches are two separate raises of the same 401 detail), but the
success path reaches `datetime.timedelta(days=7)` and dies with
`AttributeError` (HTTP 500) before any state change is committed. -/
def fastLogin (db : AuthDB) (username : String) (password : List Nat)
    (_now : Nat) : LoginResult × AuthDB :=
  match findUserByUsername db username with
  | none => (.unauthorized "Invalid username or password", db)
  | some user =>
    if !verify_password password user.password_hash then
      (.unauthorized "Invalid username or password", db)
    else if !user.is_active then
      (.forbidden "Account is disabled", db)
    else
      (.serverError "AttributeError at datetime.timedelta", db)

/-- `refresh_token_endpoint` from `flaskDataApi/app/routes/auth.py`:
verify the token as `refresh` (any codec failure is caught by the
blanket `except Exception` and becomes 401 "Invalid refresh token");
look the record up by `(token_hash, user_id)` and require
`is_valid()`; re-fetch the user and require it active; then revoke the
presented record, mint a new access token and refresh pair, insert the
new record and commit, returning the new envelope. -/
def flaskRefresh (db : AuthDB) (refresh_token : TokenStr) (now : Nat) :
    RefreshResult × AuthDB :=
  match verify_token refresh_token .refresh now with
  | .error _ => (.unauthorized "Invalid refresh token", db)
  | .ok payload =>
    match db.tokens.find? (fun r =>
        r.token_hash == get_token_hash refresh_token &&
        r.user_id == payload.sub) with
    | none => (.unauthorized "Invalid or expired refresh token", db)
    | some record =>
      if !record.is_valid now then
        (.unauthorized "Invalid or expired refresh token", db)
      else
        match findUserById db payload.sub with
        | none => (.unauthorized "User not found or inactive", db)
        | some user =>
          if !user.is_active then
            (.unauthorized "User not found or inactive", db)
          else
            let access_token :=
              create_access_token user.id user.username user.role now
            let pair := create_refresh_token user.id now db.nextFresh
            let new_refresh_record : RefreshTokenRec :=
              { id := db.nextFresh + 1, user_id := user.id,
                token_hash := pair.2,
                expires_at := now + REFRESH_TOKEN_EXPIRE,
                created_at := now, revoked := false }
            (.ok { access_token := access_token, refresh_token := pair.1,
                   token_type := "bearer",
                   expires_in := ACCESS_TOKEN_EXPIRE_MINUTES * 60 },
             { db with
               tokens := revokeFirstMatch db.tokens (fun r =>
                   r.token_hash == get_token_hash refresh_token &&
                   r.user_id == payload.sub) ++ [new_refresh_record],
               nextFresh := db.nextFresh + 2 })

/-- `refresh_token_endpoint` from `fastDataApi/app/routers/auth.py`: the
same checks inside `try`, but the success path reaches
`datetime.timedelta(days=7)` before the commit; the `AttributeError`
(like every other exception, including the early `HTTPException`s) is
caught by `except Exception` and becomes 401 "Invalid refresh token".
The session closes without a commit, so the pending revocation is
rolled back and the state is unchanged on every path. -/
def fastRefresh (db : AuthDB) (refresh_token : TokenStr) (now : Nat) :
    RefreshResult × AuthDB :=
  match verify_token refresh_token .refresh now with
  | .error _ => (.unauthorized "Invalid refresh token", db)
  | .ok payload =>
    match db.tokens.find? (fun r =>
        r.token_hash == get_token_hash refresh_token &&
        r.user_id == payload.sub) with
    | none => (.unauthorized "Invalid refresh token", db)
    | some record =>
      if !record.is_valid now then
        (.unauthorized "Invalid refresh token", db)
      else
        match findUserById db payload.sub with
        | none => (.unauthorized "Invalid refresh token", db)
        | some user =>
          if !user.is_active then
            (.unauthorized "Invalid refresh token", db)
          else
            (.unauthorized "Invalid refresh token", db)

/-- `logout` from `flaskDataApi/app/routes/auth.py`: hash the presented
string, find any matching record regardless of validity or ownership,
revoke it if found, and return 200 "Logged out successfully" on every
path (exceptions are swallowed). -/
def flaskLogout (db : AuthDB) (refresh_token : TokenStr) :
    MessageResult × AuthDB :=
  let h := get_token_hash refresh_token
  match db.tokens.find? (fun r => r.token_hash == h) with
  | none => (.success "Logged out successfully", db)
  | some _ =>
    (.success "Logged out successfully",
     { db with tokens :=
         revokeFirstMatch db.tokens (fun r => r.token_hash == h) })

/-- `logout` from `fastDataApi/app/routers/auth.py`: identical logic —
find by hash, revoke if found, commit, and return 200 with the same
message even when nothing matches or an exception is raised. -/
def fastLogout (db : AuthDB) (refresh_token : TokenStr) :
    MessageResult × AuthDB :=
  let h := get_token_hash refresh_token
  match db.tokens.find? (fun r => r.token_hash == h) with
  | none => (.success "Logged out successfully", db)
  | some _ =>
    (.success "Logged out successfully",
     { db with tokens :=
         revokeFirstMatch db.tokens (fun r => r.token_hash == h) })

/-- Outcome of the FastAPI authorization gate
(`fastDataApi/app/dependencies.py`): a resolved user, a 401, or a
403. -/
inductive GateResult where
  | ok (u : UserRec)
  | unauthorized (detail : String)
  | forbidden (detail : String)
deriving DecidableEq, Repr

/-- `get_current_user_data` + `get_current_user` from
`fastDataApi/app/dependencies.py`: `extract_user_from_token` (which is
`verify_token(token, "access")`), translating `ExpiredToken` to 401
"Token has expired" and `InvalidToken` to 401 with the exception's
message; then look the user up by the token's `sub` — 401 "User not
found" if absent, 403 "User account is disabled" if inactive. -/
def get_current_user (db : AuthDB) (token : TokenStr) (now : Nat) :
    GateResult :=
  match verify_token token .access now with
  | .error (.expiredToken _) => .unauthorized "Token has expired"
  | .error (.invalidToken m) => .unauthorized m
  | .ok payload =>
    match findUserById db payload.sub with
    | none => .unauthorized "User not found"
    | some user =>
      if !user.is_active then .forbidden "User account is disabled"
      else .ok user

/-- `require_admin` from `fastDataApi/app/dependencies.py`: resolve via
`get_current_user`, then 403 "Admin privileges required" when the
resolved (persisted) user's role is not admin. -/
def fastRequireAdmin (db : AuthDB) (token : TokenStr) (now : Nat) :
    GateResult :=
  match get_current_user db token now with
  | .ok user =>
    if user.role ≠ UserRole.admin then .forbidden "Admin privileges required"
    else .ok user
  | e => e

/-- `require_role(*allowed_roles)` from
`fastDataApi/app/dependencies.py`: resolve via `get_current_user`, then
403 when the resolved (persisted) user's role is not in the allowed
set. -/
def fastRequireRole (allowed_roles : List UserRole) (db : AuthDB)
    (token : TokenStr) (now : Nat) : GateResult :=
  match get_current_user db token now with
  | .ok user =>
    if !allowed_roles.contains user.role then
      .forbidden ("Required role: " ++
        String.intercalate ", " (allowed_roles.map UserRole.value))
    else .ok user
  | e => e

/-- Outcome of the Flask gate (`flaskDataApi/app/decorators.py`): on
success the resolved user is attached to the request together with the
claims taken from the token (`request.role = user_data["role"]`). -/
inductive FlaskGateResult where
  | ok (u : UserRec) (c : Claims)
  | unauthorized (detail : String)
  | forbidden (detail : String)
deriving DecidableEq, Repr

/-- `require_auth` from `flaskDataApi/app/decorators.py`:
`extract_user_from_token` (that is `verify_token(token, "access")`,
`ExpiredToken` → 401 "Token has expired", `InvalidToken` → 401 with its
message); then verify the user exists (401 "User not found") and is
active (403 "User account is disabled"); on success the decorator
attaches both the persisted user and the claims the token carried. -/
def flaskRequireAuth (db : AuthDB) (token : TokenStr) (now : Nat) :
    FlaskGateResult :=
  match verify_token token .access now with
  | .error (.expiredToken _) => .unauthorized "Token has expired"
  | .error (.invalidToken m) => .unauthorized m
  | .ok payload =>
    match findUserById db payload.sub with
    | none => .unauthorized "User not found"
    | some user =>
      if !user.is_active then .forbidden "User account is disabled"
      else .ok user payload

/-- `require_admin` from `flaskDataApi/app/decorators.py`: after
`require_auth`, check `request.role != UserRole.ADMIN.value` — the role
CLAIMED INSIDE THE TOKEN, not the persisted user's role — and 403 when
it differs. -/
def flaskRequireAdmin (db : AuthDB) (token : TokenStr) (now : Nat) :
    FlaskGateResult :=
  match flaskRequireAuth db token now with
  | .ok user payload =>
    if payload.role ≠ UserRole.admin then
      .forbidden "Admin privileges required"
    else .ok user payload
  | e => e

/-- `require_role(*allowed_roles)` from
`flaskDataApi/app/decorators.py`: after `require_auth`, check
`UserRole(request.role)` — again the role claimed inside the token —
against the allowed set and 403 when it is not a member. -/
def flaskRequireRole (allowed_roles : List UserRole) (db : AuthDB)
    (token : TokenStr) (now : Nat) : FlaskGateResult :=
  match flaskRequireAuth db token now with
  | .ok user payload =>
    if !allowed_roles.contains payload.role then
      .forbidden ("Required role: " ++
        String.intercalate ", " (allowed_roles.map UserRole.value))
    else .ok user payload
  | e => e

/-- One inbound request against the Flask auth surface, with the server
time at which it is handled; used to quantify over everything that can
happen to the store after a given point. -/
inductive AuthOp where
  | register (username email : String) (password : List Nat) (now : Nat)
  | login (username : String) (password : List Nat) (now : Nat)
  | refresh (t : TokenStr) (now : Nat)
  | logout (t : TokenStr) (now : Nat)

/-- The state effect of one request. -/
def applyOp (db : AuthDB) : AuthOp → AuthDB
  | .register username email password now =>
    (flaskRegister db username email password now).2
  | .login username password now => (flaskLogin db username password now).2
  | .refresh t now => (flaskRefresh db t now).2
  | .logout t _now => (flaskLogout db t).2

/-- The state effect of a sequence of requests. -/
def applyOps (db : AuthDB) (ops : List AuthOp) : AuthDB :=
  ops.foldl applyOp db

/-- Whether a stored token hash is the hash of a signed token whose
random `jti` was drawn before the counter value `n`. -/
def hashDrawnBelow (h : TokenHash) (n : Nat) : Bool :=
  match h with
  | .signed c => decide (c.jti < n)
  | .garbage _ => false

/-- Pairwise distinctness of the stored token hashes. -/
def distinctHashes : List RefreshTokenRec → Bool
  | [] => true
  | r :: rs =>
    rs.all (fun r2 => r2.token_hash != r.token_hash) && distinctHashes rs

/-- Well-formedness of a reachable store: every stored refresh-record
hash digests a token minted with an already-drawn `jti`, stored hashes
are pairwise distinct (SHA-256 collision-free, `jti` random draws
unique), and every row id / owner id was drawn before the current
counter.  This is the state of affairs the random generators guarantee
in the source. -/
def Inv (db : AuthDB) : Bool :=
  db.tokens.all (fun r =>
    hashDrawnBelow r.token_hash db.nextFresh &&
    decide (r.user_id < db.nextFresh)) &&
  distinctHashes db.tokens &&
  db.users.all (fun u => decide (u.id < db.nextFresh))

/-- After a successful rotation of the token signed with claims `c0`,
this holds of the store and keeps holding: every record whose hash
digests that token is revoked, and the `jti` of `c0` is strictly below
the freshness counter (so no later mint can recreate the token). -/
def OldTokenDead (c0 : Claims) (db : AuthDB) : Prop :=
  (∀ r ∈ db.tokens, r.token_hash = TokenStr.signed c0 → r.revoked = true) ∧
  c0.jti < db.nextFresh

/-! Concrete states and inputs used to instantiate the theorems below. -/

/-- UTF-8 bytes of "Passw0rd". -/
def pwBytes : List Nat := [80, 97, 115, 115, 119, 48, 114, 100]

/-- A registered, active user. -/
def aliceUser : UserRec :=
  { id := 1, username := "alice", email := "alice@x.com",
    password_hash := hash_password 0 pwBytes, role := .user,
    is_active := true }

/-- Claims of a live refresh token owned by `aliceUser`. -/
def aliceRefreshClaims : Claims :=
  { sub := 1, username := "", role := .user, typ := .refresh,
    exp := 1000, iat := 0, jti := 3 }

/-- The persisted record of that refresh token. -/
def aliceRefreshRec : RefreshTokenRec :=
  { id := 2, user_id := 1, token_hash := .signed aliceRefreshClaims,
    expires_at := 1000, created_at := 0, revoked := false }

/-- A reachable store: one active user holding one live refresh token. -/
def aliceDB : AuthDB :=
  { users := [aliceUser], tokens := [aliceRefreshRec], nextFresh := 4 }

/-- The envelope a refresh of `aliceRefreshClaims` at time 10 returns. -/
def aliceRotatedEnv : TokenEnvelope :=
  { access_token := .signed
      { sub := 1, username := "alice", role := .user, typ := .access,
        exp := 910, iat := 10, jti := 0 },
    refresh_token := .signed
      { sub := 1, username := "", role := .user, typ := .refresh,
        exp := 604810, iat := 10, jti := 4 },
    token_type := "bearer", expires_in := 900 }

/-- A deactivated user. -/
def bobUser : UserRec :=
  { id := 1, username := "bob", email := "bob@x.com",
    password_hash := hash_password 0 pwBytes, role := .user,
    is_active := false }

/-- A store holding only the deactivated `bobUser`. -/
def bobDB : AuthDB := { users := [bobUser], tokens := [], nextFresh := 2 }

/-- A still-unexpired access token minted for `bobUser` before the
deactivation. -/
def bobAccessClaims : Claims :=
  { sub := 1, username := "bob", role := .user, typ := .access,
    exp := 1000, iat := 0, jti := 0 }

/-- A persisted user whose stored role is plain `user`. -/
def malloryUser : UserRec :=
  { id := 1, username := "mallory", email := "m@x.com",
    password_hash := hash_password 0 pwBytes, role := .user,
    is_active := true }

/-- A store holding only `malloryUser`. -/
def malloryDB : AuthDB :=
  { users := [malloryUser], tokens := [], nextFresh := 2 }

/-- A well-signed, unexpired access token for `malloryUser` whose `role`
claim says `admin` while the persisted role is `user` (the situation
after a persisted role change with an old token still circulating). -/
def staleAdminClaims : Claims :=
  { sub := 1, username := "mallory", role := .admin, typ := .access,
    exp := 1000, iat := 0, jti := 0 }

/-- The empty store. -/
def emptyDB : AuthDB := { users := [], tokens := [], nextFresh := 0 }

/-! Theorems. -/

/-- C5: for every issued token with expiry claim `exp`, decoding at
server time `t` returns the claims when `t < exp` (and `verify` with the
matching expected type also succeeds), raises `ExpiredToken` when
`t ≥ exp` (the boundary instant `t = exp` is expired), and every decode
failure other than expiry — bad signature, malformed structure,
unsupported algorithm — raises `InvalidToken`, not `ExpiredToken`. -/
theorem c5_decode_expiry_boundary :
    (∀ (c : Claims) (now : Nat), now < c.exp →
        decode_token (.signed c) now = .ok c ∧
        (c.typ = .access → verify_token (.signed c) .access now = .ok c)) ∧
    (∀ (c : Claims) (now : Nat), c.exp ≤ now →
        decode_token (.signed c) now =
          .error (.expiredToken "Token has expired") ∧
        verify_token (.signed c) .access now =
          .error (.expiredToken "Token has expired")) ∧
    (∀ (s : String) (now : Nat),
        decode_token (.garbage s) now =
          .error (.invalidToken ("Invalid token: " ++ s)) ∧
        verify_token (.garbage s) .access now =
          .error (.invalidToken ("Invalid token: " ++ s))) := by
  refine ⟨?_, ?_, ?_⟩
  · intro c now h
    refine ⟨?_, ?_⟩
    · simp [decode_token, Nat.not_le.mpr h]
    · intro ht
      simp [verify_token, decode_token, Nat.not_le.mpr h, ht]
  · intro c now h
    constructor
    · simp [decode_token, h]
    · simp [verify_token, decode_token, h]
  · intro s now
    exact ⟨rfl, rfl⟩

/-- Witness for C5 at concrete inputs: claims expiring at 1000, checked
at times 999 (valid), 1000 (the boundary, expired) and 1001 (expired),
and a malformed string. -/
theorem c5_decode_expiry_boundary_witness :
    decode_token (.signed bobAccessClaims) 999 = .ok bobAccessClaims ∧
    decode_token (.signed bobAccessClaims) 1000 =
      .error (.expiredToken "Token has expired") ∧
    decode_token (.signed bobAccessClaims) 1001 =
      .error (.expiredToken "Token has expired") ∧
    decode_token (.garbage "xx") 0 =
      .error (.invalidToken ("Invalid token: " ++ "xx")) := by
  refine ⟨(c5_decode_expiry_boundary.1 bobAccessClaims 999 (by decide)).1,
          (c5_decode_expiry_boundary.2.1 bobAccessClaims 1000 (by decide)).1,
          (c5_decode_expiry_boundary.2.1 bobAccessClaims 1001 (by decide)).1,
          (c5_decode_expiry_boundary.2.2 "xx" 0).1⟩

/-- C4: for every well-signed, unexpired token whose decoded `type`
claim differs from the expected type, `verify_token` raises
`InvalidToken` (never returns the claims); presenting a refresh token
where an access token is expected fails at both authorization gates
with 401, and presenting an access token where a refresh token is
expected fails the Refresh endpoints with 401. -/
theorem c4_type_confusion_rejected :
    (∀ (c : Claims) (tt : TokenType) (now : Nat),
        now < c.exp → c.typ ≠ tt →
        verify_token (.signed c) tt now =
          .error (.invalidToken ("Expected " ++ tt.value ++
            " token, got " ++ c.typ.value))) ∧
    (∀ (db : AuthDB) (c : Claims) (now : Nat),
        now < c.exp → c.typ = .refresh →
        get_current_user db (.signed c) now =
          .unauthorized "Expected access token, got refresh" ∧
        flaskRequireAuth db (.signed c) now =
          .unauthorized "Expected access token, got refresh") ∧
    (∀ (db : AuthDB) (c : Claims) (now : Nat),
        now < c.exp → c.typ = .access →
        (flaskRefresh db (.signed c) now).1 =
          .unauthorized "Invalid refresh token" ∧
        (fastRefresh db (.signed c) now).1 =
          .unauthorized "Invalid refresh token") := by
  refine ⟨?_, ?_, ?_⟩
  · intro c tt now hexp hne
    simp [verify_token, decode_token, Nat.not_le.mpr hexp, hne]
  · intro db c now hexp htyp
    constructor
    · simp [get_current_user, verify_token, decode_token,
        Nat.not_le.mpr hexp, htyp, TokenType.value]
    · simp [flaskRequireAuth, verify_token, decode_token,
        Nat.not_le.mpr hexp, htyp, TokenType.value]
  · intro db c now hexp htyp
    constructor
    · simp [flaskRefresh, verify_token, decode_token,
        Nat.not_le.mpr hexp, htyp, TokenType.value]
    · simp [fastRefresh, verify_token, decode_token,
        Nat.not_le.mpr hexp, htyp, TokenType.value]

/-- Witness for C4: a live refresh token hits the access-expecting gate,
and a live access token hits the refresh endpoint. -/
theorem c4_type_confusion_rejected_witness :
    verify_token (.signed aliceRefreshClaims) .access 10 =
      .error (.invalidToken "Expected access token, got refresh") ∧
    get_current_user aliceDB (.signed aliceRefreshClaims) 10 =
      .unauthorized "Expected access token, got refresh" ∧
    (flaskRefresh bobDB (.signed bobAccessClaims) 10).1 =
      .unauthorized "Invalid refresh token" := by
  refine ⟨c4_type_confusion_rejected.1 aliceRefreshClaims .access 10
            (by decide) (by decide),
          (c4_type_confusion_rejected.2.1 aliceDB aliceRefreshClaims 10
            (by decide) rfl).1,
          (c4_type_confusion_rejected.2.2 bobDB bobAccessClaims 10
            (by decide) rfl).1⟩

/-- C9 counterexample: the claim "verify_password(p2, hash_password(p))
is false for every p2 ≠ p" fails at boundary lengths: bcrypt uses only
the first 72 bytes of the password, so the 73-byte passwords
"aa...a" (73 a's) and "aa...ab" (72 a's then b) are distinct yet verify
against each other's hash. -/
theorem c9_bcrypt_truncation_counterexample :
    List.replicate 73 (97 : Nat) ≠ List.replicate 72 (97 : Nat) ++ [98] ∧
    verify_password (List.replicate 72 (97 : Nat) ++ [98])
      (hash_password 5 (List.replicate 73 (97 : Nat))) = true := by
  decide

/-- C9 amended: `verify_password(p, hash_password(p))` is true for all
p; and `verify_password(p2, hash_password(p))` is false exactly when p2
and p differ within their first 72 bytes — bcrypt (via passlib)
silently truncates passwords to 72 bytes, so distinct passwords that
agree on their first 72 bytes verify interchangeably. -/
theorem c9_password_verify_amended :
    (∀ (salt : Nat) (p : List Nat),
        verify_password p (hash_password salt p) = true) ∧
    (∀ (salt : Nat) (p p2 : List Nat),
        verify_password p2 (hash_password salt p) = true ↔
          p2.take 72 = p.take 72) := by
  constructor
  · intro salt p
    simp [verify_password, hash_password]
  · intro salt p p2
    simp [verify_password, hash_password]

/-- Witness for C9 (amended): round trip succeeds, and a password
differing within the first 72 bytes is rejected. -/
theorem c9_password_verify_amended_witness :
    verify_password pwBytes (hash_password 0 pwBytes) = true ∧
    verify_password [80] (hash_password 0 pwBytes) = false := by
  constructor
  · exact c9_password_verify_amended.1 0 pwBytes
  · have h := (c9_password_verify_amended.2 0 pwBytes [80])
    have : ¬ ([80] : List Nat).take 72 = pwBytes.take 72 := by decide
    rcases hb : verify_password [80] (hash_password 0 pwBytes) with _ | _
    · rfl
    · exact absurd (h.mp hb) this

/-- C3: Login fails with 401 and the SAME literal message whether the
username matches no identity or the password fails to verify (no
username enumeration), and with 403 when the identity exists, the
password verifies, but the account is inactive — in both the Flask and
the FastAPI variant. -/
theorem c3_login_error_paths :
    (∀ (db : AuthDB) (username : String) (password : List Nat) (now : Nat),
        findUserByUsername db username = none →
        (flaskLogin db username password now).1 =
          .unauthorized "Invalid username or password" ∧
        (fastLogin db username password now).1 =
          .unauthorized "Invalid username or password") ∧
    (∀ (db : AuthDB) (username : String) (password : List Nat) (now : Nat)
        (u : UserRec),
        findUserByUsername db username = some u →
        verify_password password u.password_hash = false →
        (flaskLogin db username password now).1 =
          .unauthorized "Invalid username or password" ∧
        (fastLogin db username password now).1 =
          .unauthorized "Invalid username or password") ∧
    (∀ (db : AuthDB) (username : String) (password : List Nat) (now : Nat)
        (u : UserRec),
        findUserByUsername db username = some u →
        verify_password password u.password_hash = true →
        u.is_active = false →
        (flaskLogin db username password now).1 =
          .forbidden "Account is disabled" ∧
        (fastLogin db username password now).1 =
          .forbidden "Account is disabled") := by
  refine ⟨?_, ?_, ?_⟩
  · intro db username password now h
    constructor
    · simp [flaskLogin, h]
    · simp [fastLogin, h]
  · intro db username password now u hu hv
    constructor
    · simp [flaskLogin, hu, hv]
    · simp [fastLogin, hu, hv]
  · intro db username password now u hu hv ha
    constructor
    · simp [flaskLogin, hu, hv, ha]
    · simp [fastLogin, hu, hv, ha]

/-- Witness for C3: unknown username, wrong password for a known
username (same message), and a correct password for a deactivated
account. -/
theorem c3_login_error_paths_witness :
    (flaskLogin aliceDB "nobody" pwBytes 0).1 =
      .unauthorized "Invalid username or password" ∧
    (flaskLogin aliceDB "alice" [0] 0).1 =
      .unauthorized "Invalid username or password" ∧
    (flaskLogin bobDB "bob" pwBytes 0).1 =
      .forbidden "Account is disabled" := by
  refine ⟨(c3_login_error_paths.1 aliceDB "nobody" pwBytes 0 (by decide)).1,
          (c3_login_error_paths.2.1 aliceDB "alice" [0] 0 aliceUser
            (by decide) (by decide)).1,
          (c3_login_error_paths.2.2 bobDB "bob" pwBytes 0 bobUser
            (by decide) (by decide) (by decide)).1⟩

/-- C6: a request presenting a signature-valid, unexpired access token
whose subject identity is persisted with `is_active = false` is rejected
with 403 (not 401, not success) by both gates: the active flag is read
from the store on every authenticated request, independently of the
token's own validity. -/
theorem c6_inactive_rejected_403
    (db : AuthDB) (c : Claims) (now : Nat) (u : UserRec)
    (hexp : now < c.exp) (htyp : c.typ = .access)
    (hu : findUserById db c.sub = some u) (hact : u.is_active = false) :
    get_current_user db (.signed c) now =
      .forbidden "User account is disabled" ∧
    flaskRequireAuth db (.signed c) now =
      .forbidden "User account is disabled" := by
  constructor
  · simp [get_current_user, verify_token, decode_token,
      Nat.not_le.mpr hexp, htyp, hu, hact]
  · simp [flaskRequireAuth, verify_token, decode_token,
      Nat.not_le.mpr hexp, htyp, hu, hact]

/-- Witness for C6: bob's still-unexpired access token after bob was
deactivated. -/
theorem c6_inactive_rejected_403_witness :
    get_current_user bobDB (.signed bobAccessClaims) 10 =
      .forbidden "User account is disabled" ∧
    flaskRequireAuth bobDB (.signed bobAccessClaims) 10 =
      .forbidden "User account is disabled" :=
  c6_inactive_rejected_403 bobDB bobAccessClaims 10 bobUser
    (by decide) rfl (by decide) (by decide)

/-- C8 counterexample: the claim fails on the Flask gate.  `malloryDB`
persists the identity with role `user`, yet a well-signed unexpired
access token still claiming `admin` (minted before a role change)
passes `require_admin`: the Flask decorator checks the role claimed
inside the token, not the resolved identity's stored role, so the
request reaches the admin-gated handler. -/
theorem c8_flask_gate_counterexample :
    malloryUser.role ≠ UserRole.admin ∧
    findUserById malloryDB staleAdminClaims.sub = some malloryUser ∧
    flaskRequireAdmin malloryDB (.signed staleAdminClaims) 10 =
      .ok malloryUser staleAdminClaims := by
  refine ⟨by decide, by decide, by decide⟩

/-- C8 amended: once the base resolution succeeds, the FastAPI gate
rejects with 403 exactly when the RESOLVED identity's stored role is
outside the allowed set (a persisted role change is honored), while the
Flask gate rejects with 403 exactly when the role CLAIMED INSIDE THE
TOKEN is outside the allowed set (a persisted role change is honored
only after a new token is issued). -/
theorem c8_role_gate_amended :
    (∀ (roles : List UserRole) (db : AuthDB) (t : TokenStr) (now : Nat)
        (u : UserRec), get_current_user db t now = .ok u →
        fastRequireRole roles db t now =
          (if roles.contains u.role then .ok u
           else .forbidden ("Required role: " ++
             String.intercalate ", " (roles.map UserRole.value)))) ∧
    (∀ (db : AuthDB) (t : TokenStr) (now : Nat) (u : UserRec),
        get_current_user db t now = .ok u →
        fastRequireAdmin db t now =
          (if u.role = .admin then .ok u
           else .forbidden "Admin privileges required")) ∧
    (∀ (roles : List UserRole) (db : AuthDB) (t : TokenStr) (now : Nat)
        (u : UserRec) (c : Claims), flaskRequireAuth db t now = .ok u c →
        flaskRequireRole roles db t now =
          (if roles.contains c.role then .ok u c
           else .forbidden ("Required role: " ++
             String.intercalate ", " (roles.map UserRole.value)))) ∧
    (∀ (db : AuthDB) (t : TokenStr) (now : Nat) (u : UserRec) (c : Claims),
        flaskRequireAuth db t now = .ok u c →
        flaskRequireAdmin db t now =
          (if c.role = .admin then .ok u c
           else .forbidden "Admin privileges required")) := by
  refine ⟨?_, ?_, ?_, ?_⟩
  · intro roles db t now u h
    cases hr : roles.contains u.role with
    | true => simp [fastRequireRole, h, hr]; simpa using hr
    | false => simp [fastRequireRole, h, hr]; simpa using hr
  · intro db t now u h
    by_cases hr : u.role = UserRole.admin
    · simp [fastRequireAdmin, h, hr]
    · simp [fastRequireAdmin, h, hr]
  · intro roles db t now u c h
    cases hr : roles.contains c.role with
    | true => simp [flaskRequireRole, h, hr]; simpa using hr
    | false => simp [flaskRequireRole, h, hr]; simpa using hr
  · intro db t now u c h
    by_cases hr : c.role = UserRole.admin
    · simp [flaskRequireAdmin, h, hr]
    · simp [flaskRequireAdmin, h, hr]

/-- Witness for C8 (amended): the FastAPI gate denies mallory's stale
admin token against the stored role; the Flask gate honors the claimed
role. -/
theorem c8_role_gate_amended_witness :
    fastRequireAdmin malloryDB (.signed staleAdminClaims) 10 =
      .forbidden "Admin privileges required" ∧
    flaskRequireAdmin malloryDB (.signed staleAdminClaims) 10 =
      .ok malloryUser staleAdminClaims := by
  constructor
  · have h := c8_role_gate_amended.2.1 malloryDB (.signed staleAdminClaims)
      10 malloryUser (by decide)
    rw [h]; decide
  · have h := c8_role_gate_amended.2.2.2 malloryDB (.signed staleAdminClaims)
      10 malloryUser staleAdminClaims (by decide)
    rw [h]; decide

/-- Updating `revoked` does not change the hash a record stores, so
re-revoking the first hash-match of an already-revoked list is a no-op. -/
theorem revokeFirstMatch_hash_idem (l : List RefreshTokenRec) (h : TokenHash) :
    revokeFirstMatch (revokeFirstMatch l (fun r => r.token_hash == h))
        (fun r => r.token_hash == h) =
      revokeFirstMatch l (fun r => r.token_hash == h) := by
  induction l with
  | nil => rfl
  | cons a as ih =>
    by_cases hp : a.token_hash == h
    · simp [revokeFirstMatch, hp]
    · simp [revokeFirstMatch, hp, ih]

/-- The first hash-match of the revoked list is the revoked image of the
first hash-match of the original list. -/
theorem find?_revokeFirstMatch (l : List RefreshTokenRec) (h : TokenHash)
    (r : RefreshTokenRec)
    (hf : l.find? (fun r => r.token_hash == h) = some r) :
    (revokeFirstMatch l (fun r => r.token_hash == h)).find?
        (fun r => r.token_hash == h) = some { r with revoked := true } := by
  induction l with
  | nil => simp at hf
  | cons a as ih =>
    by_cases hp : (a.token_hash == h) = true
    · simp only [List.find?_cons, hp, if_true] at hf
      cases hf
      simp [revokeFirstMatch, hp, List.find?_cons]
    · rw [Bool.not_eq_true] at hp
      simp only [List.find?_cons, hp, Bool.false_eq_true, if_false] at hf
      simp only [revokeFirstMatch, hp, Bool.false_eq_true, if_false]
      simp only [List.find?_cons, hp, Bool.false_eq_true, if_false]
      exact ih hf

/-- C7: Logout returns HTTP 200 with a success message on every input —
malformed strings, fabricated tokens matching no record, and tokens
whose record is already revoked or expired — in both variants; when a
record with a matching hash exists its `revoked` flag is set; and a
repeated Logout with the same token observes the already-revoked record,
changes nothing further, and still succeeds. -/
theorem c7_logout_always_succeeds :
    ∀ (db : AuthDB) (t : TokenStr),
      (flaskLogout db t).1 = .success "Logged out successfully" ∧
      (fastLogout db t).1 = .success "Logged out successfully" ∧
      flaskLogout (flaskLogout db t).2 t =
        (.success "Logged out successfully", (flaskLogout db t).2) ∧
      (∀ r, db.tokens.find? (fun r => r.token_hash == get_token_hash t) =
          some r →
        (flaskLogout db t).2.tokens.find?
            (fun r => r.token_hash == get_token_hash t) =
          some { r with revoked := true }) := by
  intro db t
  refine ⟨?_, ?_, ?_, ?_⟩
  · cases hf : db.tokens.find? (fun r => r.token_hash == get_token_hash t)
    all_goals simp [flaskLogout, hf]
  · cases hf : db.tokens.find? (fun r => r.token_hash == get_token_hash t)
    all_goals simp [fastLogout, hf]
  · cases hf : db.tokens.find? (fun r => r.token_hash == get_token_hash t)
      with
    | none =>
      simp [flaskLogout, hf]
    | some r =>
      have hf2 := find?_revokeFirstMatch db.tokens (get_token_hash t) r hf
      have hsnd : (flaskLogout db t).2 =
          { db with tokens := (revokeFirstMatch db.tokens
              (fun r => r.token_hash == get_token_hash t)) } := by
        simp [flaskLogout, hf]
      rw [hsnd]
      simp [flaskLogout, hf2, revokeFirstMatch_hash_idem]
  · intro r hf
    have hf2 := find?_revokeFirstMatch db.tokens (get_token_hash t) r hf
    simp [flaskLogout, hf, hf2]

/-- Witness for C7: logging alice's live refresh token out succeeds and
revokes its record; doing it again succeeds and changes nothing;
a fabricated garbage string also succeeds. -/
theorem c7_logout_always_succeeds_witness :
    (flaskLogout aliceDB (.signed aliceRefreshClaims)).1 =
      .success "Logged out successfully" ∧
    (flaskLogout aliceDB (.garbage "fabricated")).1 =
      .success "Logged out successfully" ∧
    flaskLogout (flaskLogout aliceDB (.signed aliceRefreshClaims)).2
        (.signed aliceRefreshClaims) =
      (.success "Logged out successfully",
       (flaskLogout aliceDB (.signed aliceRefreshClaims)).2) ∧
    (flaskLogout aliceDB (.signed aliceRefreshClaims)).2.tokens.find?
        (fun r => r.token_hash == get_token_hash (.signed aliceRefreshClaims))
      = some { aliceRefreshRec with revoked := true } :=
  ⟨(c7_logout_always_succeeds aliceDB (.signed aliceRefreshClaims)).1,
   (c7_logout_always_succeeds aliceDB (.garbage "fabricated")).1,
   (c7_logout_always_succeeds aliceDB (.signed aliceRefreshClaims)).2.2.1,
   (c7_logout_always_succeeds aliceDB
     (.signed aliceRefreshClaims)).2.2.2 aliceRefreshRec (by decide)⟩

/-- Appending a new element behind a list the filter misses makes it the
first match. -/
theorem find?_append_singleton {α} (p : α → Bool) (l : List α) (x : α)
    (hl : l.find? p = none) (hx : p x = true) :
    (l ++ [x]).find? p = some x := by
  induction l with
  | nil => simp [List.find?_cons, hx]
  | cons a as ih =>
    by_cases hp : p a = true
    · simp [List.find?_cons, hp] at hl
    · rw [Bool.not_eq_true] at hp
      simp only [List.find?_cons, hp, Bool.false_eq_true, if_false] at hl
      simp only [List.cons_append, List.find?_cons, hp, Bool.false_eq_true,
        if_false]
      exact ih hl

/-- C2 (divergence witness): on the FastAPI variant, a perfectly valid
registration — fresh username, fresh email, policy-passing password —
does NOT return 201 with tokens: after committing the new user the
handler evaluates `datetime.timedelta(days=7)` on the `datetime` class
and dies with an unhandled `AttributeError` (HTTP 500).  The user is
durably created (a second Register with the same username and a
different email conflicts) but no refresh record exists and no envelope
is returned.  The Flask variant, whose imports are correct, returns 201
with both tokens and the created identity's role fixed to `user` —
exactly what the claim describes. -/
theorem c2_fast_register_crashes_after_commit :
    (fastRegister emptyDB "alice" "alice@x.com" pwBytes 0).1 =
      .serverError "token minting raised after the first commit" ∧
    findUserByUsername (fastRegister emptyDB "alice" "alice@x.com" pwBytes 0).2
        "alice" =
      some { id := 0, username := "alice", email := "alice@x.com",
             password_hash := hash_password 1 pwBytes, role := .user,
             is_active := true } ∧
    (fastRegister emptyDB "alice" "alice@x.com" pwBytes 0).2.tokens = [] ∧
    (fastRegister (fastRegister emptyDB "alice" "alice@x.com" pwBytes 0).2
        "alice" "other@x.com" pwBytes 1).1 =
      .conflict "Username already registered" ∧
    (flaskRegister emptyDB "alice" "alice@x.com" pwBytes 0).1 = .created
      { access_token := .signed
          { sub := 0, username := "alice", role := .user, typ := .access,
            exp := 900, iat := 0, jti := 0 },
        refresh_token := .signed
          { sub := 0, username := "", role := .user, typ := .refresh,
            exp := 604800, iat := 0, jti := 2 },
        token_type := "bearer", expires_in := 900 } := by
  decide

/-- C10: Register is not atomic.  The identity is committed in a first
transaction before any token work; when the minting/persistence step
between the two commits fails, the outcome is an error (no envelope),
the identity remains durably created with role `user` (so a subsequent
Register with the same username conflicts, in either variant), and no
refresh-token record referencing the new identity exists. -/
theorem c10_register_non_atomic
    (db : AuthDB) (username email email2 : String)
    (password password2 : List Nat) (now now' : Nat)
    (hinv : Inv db = true)
    (hu : findUserByUsername db username = none)
    (he : findUserByEmail db email = none) :
    (registerPhased db username email password now false).1 =
      .serverError "token minting raised after the first commit" ∧
    findUserByUsername
        (registerPhased db username email password now false).2 username =
      some { id := db.nextFresh, username := username, email := email,
             password_hash := hash_password (db.nextFresh + 1) password,
             role := .user, is_active := true } ∧
    (registerPhased db username email password now false).2.tokens =
      db.tokens ∧
    (∀ r ∈ (registerPhased db username email password now false).2.tokens,
        r.user_id ≠ db.nextFresh) ∧
    (flaskRegister (registerPhased db username email password now false).2
        username email2 password2 now').1 =
      .conflict "Username already registered" ∧
    (fastRegister (registerPhased db username email password now false).2
        username email2 password2 now').1 =
      .conflict "Username already registered" := by
  have hstep : (registerPhased db username email password now false).2 =
      { db with
        users := (db.users ++
          [{ id := db.nextFresh, username := username, email := email,
             password_hash := hash_password (db.nextFresh + 1) password,
             role := .user, is_active := true }]),
        nextFresh := db.nextFresh + 2 } := by
    simp [registerPhased, hu, he]
  have hfind : findUserByUsername
      (registerPhased db username email password now false).2 username =
      some { id := db.nextFresh, username := username, email := email,
             password_hash := hash_password (db.nextFresh + 1) password,
             role := .user, is_active := true } := by
    rw [hstep]
    exact find?_append_singleton _ db.users _ hu (by simp)
  refine ⟨by simp [registerPhased, hu, he], hfind, by rw [hstep], ?_, ?_, ?_⟩
  · rw [hstep]
    intro r hr
    simp only [Inv, Bool.and_eq_true, List.all_eq_true] at hinv
    exact Nat.ne_of_lt (of_decide_eq_true (hinv.1.1 r hr).2)
  · set X := (registerPhased db username email password now false).2 with hX
    simp [flaskRegister, registerPhased, hfind]
  · set X := (registerPhased db username email password now false).2 with hX
    simp [fastRegister, registerPhased, hfind]

/-- Witness for C10: a concrete failing-mint execution over the empty
store — the run errors, alice exists afterwards, no token record
references her, and re-registering her conflicts. -/
theorem c10_register_non_atomic_witness :
    (registerPhased emptyDB "alice" "alice@x.com" pwBytes 0 false).1 =
      .serverError "token minting raised after the first commit" ∧
    (flaskRegister (registerPhased emptyDB "alice" "alice@x.com" pwBytes
        0 false).2 "alice" "other@x.com" pwBytes 5).1 =
      .conflict "Username already registered" := by
  have h := c10_register_non_atomic emptyDB "alice" "alice@x.com"
    "other@x.com" pwBytes pwBytes 0 5 (by decide) (by decide) (by decide)
  exact ⟨h.1, h.2.2.2.2.1⟩

/-- Inversion of a successful verification of a signed token: the
returned claims are the token's, the type matches, and it is
unexpired. -/
theorem verify_signed_ok (c payload : Claims) (tt : TokenType) (now : Nat)
    (h : verify_token (.signed c) tt now = .ok payload) :
    payload = c ∧ c.typ = tt ∧ now < c.exp := by
  by_cases hexp : c.exp ≤ now
  · simp [verify_token, decode_token, hexp] at h
  · by_cases htyp : c.typ = tt
    · simp [verify_token, decode_token, hexp, htyp] at h
      exact ⟨h.symm, htyp, Nat.not_le.mp hexp⟩
    · simp [verify_token, decode_token, hexp, htyp] at h

/-- Every element of `revokeFirstMatch l p` is an element of `l` or the
revoked image of one; the stored hash is unchanged either way. -/
theorem mem_revokeFirstMatch (l : List RefreshTokenRec)
    (p : RefreshTokenRec → Bool) (r : RefreshTokenRec)
    (hr : r ∈ revokeFirstMatch l p) :
    ∃ r0 ∈ l, r.token_hash = r0.token_hash ∧
      (r = r0 ∨ r = { r0 with revoked := true }) := by
  induction l with
  | nil => simp [revokeFirstMatch] at hr
  | cons a as ih =>
    by_cases hp : p a = true
    · simp only [revokeFirstMatch, hp, if_true] at hr
      rcases List.mem_cons.mp hr with h | h
      · exact ⟨a, List.mem_cons_self a as, by rw [h], Or.inr h⟩
      · exact ⟨r, List.mem_cons_of_mem a h, rfl, Or.inl rfl⟩
    · rw [Bool.not_eq_true] at hp
      simp only [revokeFirstMatch, hp, Bool.false_eq_true, if_false] at hr
      rcases List.mem_cons.mp hr with h | h
      · exact ⟨a, List.mem_cons_self a as, by rw [h], Or.inl h⟩
      · obtain ⟨r0, hr0, hh, hc⟩ := ih h
        exact ⟨r0, List.mem_cons_of_mem a hr0, hh, hc⟩

/-- Revoking (any first match) preserves "every record hashing the dead
token is revoked". -/
theorem dead_revokeFirstMatch (c0 : Claims) (l : List RefreshTokenRec)
    (p : RefreshTokenRec → Bool)
    (hd : ∀ r ∈ l, r.token_hash = TokenStr.signed c0 → r.revoked = true) :
    ∀ r ∈ revokeFirstMatch l p,
      r.token_hash = TokenStr.signed c0 → r.revoked = true := by
  intro r hr hh
  obtain ⟨r0, hr0, hhash, hcase⟩ := mem_revokeFirstMatch l p r hr
  rcases hcase with rfl | rfl
  · exact hd r hr0 hh
  · rfl

/-- When the stored hashes are pairwise distinct and the first match of
`p` hashes the token of `c0`, revoking that first match leaves no
unrevoked record hashing that token. -/
theorem revokeFirstMatch_kills_hash (l : List RefreshTokenRec)
    (p : RefreshTokenRec → Bool) (rec0 : RefreshTokenRec) (c0 : Claims)
    (hfind : l.find? p = some rec0)
    (hrh : rec0.token_hash = TokenStr.signed c0)
    (hdist : distinctHashes l = true) :
    ∀ r ∈ revokeFirstMatch l p,
      r.token_hash = TokenStr.signed c0 → r.revoked = true := by
  induction l with
  | nil => simp at hfind
  | cons a as ih =>
    simp only [distinctHashes, Bool.and_eq_true, List.all_eq_true] at hdist
    by_cases hp : p a = true
    · simp only [List.find?_cons, hp, if_true] at hfind
      cases hfind
      intro r hr hh
      simp only [revokeFirstMatch, hp, if_true] at hr
      rcases List.mem_cons.mp hr with rfl | hmem
      · rfl
      · exfalso
        have hne := bne_iff_ne.mp (hdist.1 r hmem)
        exact hne (hh.trans hrh.symm)
    · rw [Bool.not_eq_true] at hp
      simp only [List.find?_cons, hp, Bool.false_eq_true, if_false] at hfind
      intro r hr hh
      simp only [revokeFirstMatch, hp, Bool.false_eq_true, if_false] at hr
      rcases List.mem_cons.mp hr with rfl | hmem
      · exfalso
        have hrec_mem : rec0 ∈ as := List.mem_of_find?_eq_some hfind
        have hne := bne_iff_ne.mp (hdist.1 rec0 hrec_mem)
        exact hne (hrh.trans hh.symm)
      · exact ih hfind hdist.2 r hmem hh

/-- A refresh token minted with a strictly fresher `jti` never hashes to
the dead token. -/
theorem create_refresh_hash_ne (uid now jti : Nat) (c0 : Claims)
    (hj : c0.jti < jti) :
    (create_refresh_token uid now jti).2 ≠ TokenStr.signed c0 := by
  simp only [create_refresh_token, get_token_hash]
  intro h
  have h2 := congrArg Claims.jti (TokenStr.signed.inj h)
  simp only at h2
  omega

/-- `OldTokenDead` is preserved by the state effect of Register. -/
theorem dead_flaskRegister (c0 : Claims) (db : AuthDB)
    (username email : String) (password : List Nat) (now : Nat)
    (hd : OldTokenDead c0 db) :
    OldTokenDead c0 (flaskRegister db username email password now).2 := by
  obtain ⟨h1, h2⟩ := hd
  unfold flaskRegister registerPhased
  cases hu : findUserByUsername db username with
  | some u => simp only [hu]; exact ⟨h1, h2⟩
  | none =>
    cases he : findUserByEmail db email with
    | some u => simp only [hu, he]; exact ⟨h1, h2⟩
    | none =>
      simp only [hu, he, if_true]
      constructor
      · intro r hr hh
        rcases List.mem_append.mp hr with hm | hm
        · exact h1 r hm hh
        · exfalso
          rw [List.mem_singleton.mp hm] at hh
          exact create_refresh_hash_ne db.nextFresh now (db.nextFresh + 2)
            c0 (by omega) hh
      · simp only
        omega

/-- `OldTokenDead` is preserved by the state effect of Login. -/
theorem dead_flaskLogin (c0 : Claims) (db : AuthDB) (username : String)
    (password : List Nat) (now : Nat) (hd : OldTokenDead c0 db) :
    OldTokenDead c0 (flaskLogin db username password now).2 := by
  obtain ⟨h1, h2⟩ := hd
  unfold flaskLogin
  cases hu : findUserByUsername db username with
  | none => simp only [hu]; exact ⟨h1, h2⟩
  | some user =>
    simp only [hu]
    by_cases hv : verify_password password user.password_hash = true
    · simp only [hv, Bool.not_true, Bool.false_eq_true, if_false]
      by_cases ha : user.is_active = true
      · simp only [ha, Bool.not_true, Bool.false_eq_true, if_false]
        constructor
        · intro r hr hh
          rcases List.mem_append.mp hr with hm | hm
          · exact h1 r hm hh
          · exfalso
            rw [List.mem_singleton.mp hm] at hh
            exact create_refresh_hash_ne user.id now db.nextFresh c0
              (by omega) hh
        · simp only
          omega
      · rw [Bool.not_eq_true] at ha
        simp only [ha, Bool.not_false, if_true]
        exact ⟨h1, h2⟩
    · rw [Bool.not_eq_true] at hv
      simp only [hv, Bool.not_false, if_true]
      exact ⟨h1, h2⟩

/-- `OldTokenDead` is preserved by the state effect of Refresh, whatever
token is presented. -/
theorem dead_flaskRefresh (c0 : Claims) (db : AuthDB) (t : TokenStr)
    (now : Nat) (hd : OldTokenDead c0 db) :
    OldTokenDead c0 (flaskRefresh db t now).2 := by
  obtain ⟨h1, h2⟩ := hd
  unfold flaskRefresh
  cases hv : verify_token t .refresh now with
  | error e => simp only [hv]; exact ⟨h1, h2⟩
  | ok payload =>
    simp only [hv]
    cases hf : db.tokens.find? (fun r =>
        r.token_hash == get_token_hash t && r.user_id == payload.sub) with
    | none => exact ⟨h1, h2⟩
    | some record =>
      by_cases hvalid : record.is_valid now = true
      · simp only [hvalid, Bool.not_true, Bool.false_eq_true, if_false]
        cases hu : findUserById db payload.sub with
        | none => exact ⟨h1, h2⟩
        | some user =>
          by_cases ha : user.is_active = true
          · simp only [ha, Bool.not_true, Bool.false_eq_true, if_false]
            constructor
            · intro r hr hh
              rcases List.mem_append.mp hr with hm | hm
              · exact dead_revokeFirstMatch c0 db.tokens _ h1 r hm hh
              · exfalso
                rw [List.mem_singleton.mp hm] at hh
                exact create_refresh_hash_ne user.id now db.nextFresh c0
                  (by omega) hh
            · simp only
              omega
          · rw [Bool.not_eq_true] at ha
            simp only [ha, Bool.not_false, if_true]
            exact ⟨h1, h2⟩
      · rw [Bool.not_eq_true] at hvalid
        simp only [hvalid, Bool.not_false, if_true]
        exact ⟨h1, h2⟩

/-- `OldTokenDead` is preserved by the state effect of Logout. -/
theorem dead_flaskLogout (c0 : Claims) (db : AuthDB) (t : TokenStr)
    (hd : OldTokenDead c0 db) :
    OldTokenDead c0 (flaskLogout db t).2 := by
  obtain ⟨h1, h2⟩ := hd
  unfold flaskLogout
  cases hf : db.tokens.find?
      (fun r => r.token_hash == get_token_hash t) with
  | none => simp only [hf]; exact ⟨h1, h2⟩
  | some r =>
    simp only [hf]
    exact ⟨dead_revokeFirstMatch c0 db.tokens _ h1, h2⟩

/-- `OldTokenDead` is preserved by every request. -/
theorem dead_applyOp (c0 : Claims) (db : AuthDB) (op : AuthOp)
    (hd : OldTokenDead c0 db) : OldTokenDead c0 (applyOp db op) := by
  cases op with
  | register username email password now =>
    exact dead_flaskRegister c0 db username email password now hd
  | login username password now =>
    exact dead_flaskLogin c0 db username password now hd
  | refresh t now => exact dead_flaskRefresh c0 db t now hd
  | logout t now => exact dead_flaskLogout c0 db t hd

/-- `OldTokenDead` is preserved by every sequence of requests. -/
theorem dead_applyOps (c0 : Claims) (db : AuthDB) (ops : List AuthOp)
    (hd : OldTokenDead c0 db) : OldTokenDead c0 (applyOps db ops) := by
  induction ops generalizing db with
  | nil => exact hd
  | cons op ops ih => exact ih (applyOp db op) (dead_applyOp c0 db op hd)

/-- As long as every record hashing the token of `c0` is revoked, a
Refresh presenting that token fails with 401. -/
theorem refresh_fails_when_dead (db : AuthDB) (c0 : Claims) (now : Nat)
    (hd : ∀ r ∈ db.tokens,
      r.token_hash = TokenStr.signed c0 → r.revoked = true) :
    ((flaskRefresh db (.signed c0) now).1).isUnauthorized = true := by
  unfold flaskRefresh
  cases hv : verify_token (.signed c0) .refresh now with
  | error e => simp [hv, RefreshResult.isUnauthorized]
  | ok payload =>
    simp only [hv]
    cases hf : db.tokens.find? (fun r =>
        r.token_hash == get_token_hash (.signed c0) &&
        r.user_id == payload.sub) with
    | none => simp [RefreshResult.isUnauthorized]
    | some record =>
      have hmem := List.mem_of_find?_eq_some hf
      have hpred := List.find?_some hf
      have hrh : record.token_hash = TokenStr.signed c0 := by
        have hb := ((Bool.and_eq_true _ _).mp hpred).1
        simpa [get_token_hash] using hb
      have hrev := hd record hmem hrh
      have hvalid : record.is_valid now = false := by
        simp [RefreshTokenRec.is_valid, hrev]
      simp [hvalid, RefreshResult.isUnauthorized]

/-- A successful Refresh revokes the presented record before returning:
immediately after the call, every record hashing the presented token is
revoked and the token's `jti` is stale relative to the freshness
counter. -/
theorem flaskRefresh_ok_dead (db : AuthDB) (c0 : Claims) (now : Nat)
    (env : TokenEnvelope) (hinv : Inv db = true)
    (hok : (flaskRefresh db (.signed c0) now).1 = .ok env) :
    OldTokenDead c0 (flaskRefresh db (.signed c0) now).2 := by
  simp only [Inv, Bool.and_eq_true, List.all_eq_true] at hinv
  obtain ⟨⟨hA, hdist⟩, hC⟩ := hinv
  cases hv : verify_token (.signed c0) .refresh now with
  | error e => simp [flaskRefresh, hv] at hok
  | ok payload =>
    obtain ⟨hpay, htyp, hexp⟩ := verify_signed_ok c0 payload .refresh now hv
    subst hpay
    cases hf : db.tokens.find? (fun r =>
        r.token_hash == get_token_hash (.signed payload) &&
        r.user_id == payload.sub) with
    | none => simp [flaskRefresh, hv, hf] at hok
    | some record =>
      have hmem := List.mem_of_find?_eq_some hf
      have hpred := List.find?_some hf
      have hrh : record.token_hash = TokenStr.signed payload := by
        have hb := ((Bool.and_eq_true _ _).mp hpred).1
        simpa [get_token_hash] using hb
      have hjti : payload.jti < db.nextFresh := by
        have hfsh := (hA record hmem).1
        rw [hrh] at hfsh
        simpa [hashDrawnBelow] using hfsh
      by_cases hvalid : record.is_valid now = true
      · cases hu : findUserById db payload.sub with
        | none => simp [flaskRefresh, hv, hf, hvalid, hu] at hok
        | some user =>
          by_cases hact : user.is_active = true
          · have hgoal : (flaskRefresh db (.signed payload) now).2 =
                { db with
                  tokens := (revokeFirstMatch db.tokens (fun r =>
                      r.token_hash == get_token_hash (.signed payload) &&
                      r.user_id == payload.sub) ++
                    [{ id := db.nextFresh + 1, user_id := user.id,
                       token_hash :=
                         (create_refresh_token user.id now db.nextFresh).2,
                       expires_at := now + REFRESH_TOKEN_EXPIRE,
                       created_at := now, revoked := false }]),
                  nextFresh := db.nextFresh + 2 } := by
              simp only [flaskRefresh, hv, hf, hvalid, Bool.not_true,
                Bool.false_eq_true, if_false, hu, hact]
            rw [hgoal]
            constructor
            · intro r hr hh
              rcases List.mem_append.mp hr with hm | hm
              · exact revokeFirstMatch_kills_hash db.tokens _ record payload
                  hf hrh hdist r hm hh
              · exfalso
                rw [List.mem_singleton.mp hm] at hh
                exact create_refresh_hash_ne user.id now db.nextFresh payload
                  hjti hh
            · simp only
              omega
          · rw [Bool.not_eq_true] at hact
            simp [flaskRefresh, hv, hf, hvalid, hu, hact] at hok
      · rw [Bool.not_eq_true] at hvalid
        simp [flaskRefresh, hv, hf, hvalid] at hok

/-- C1: after one successful Refresh presenting refresh token `t`, the
presented record's `revoked` flag is true when the call returns, and
stays true across every later sequence of requests; hence `t` never
again passes the store's validity check (no instant at which both `t`
and its replacement validate), and every later Refresh presenting `t`
fails with 401 AuthenticationError, at any server time. -/
theorem c1_refresh_rotation_revokes_old_token
    (db : AuthDB) (c0 : Claims) (now : Nat) (env : TokenEnvelope)
    (hinv : Inv db = true)
    (hok : (flaskRefresh db (.signed c0) now).1 = .ok env)
    (ops : List AuthOp) (now' : Nat) :
    (∀ r ∈ (applyOps (flaskRefresh db (.signed c0) now).2 ops).tokens,
        r.token_hash = TokenStr.signed c0 →
          r.revoked = true ∧ r.is_valid now' = false) ∧
    ((flaskRefresh (applyOps (flaskRefresh db (.signed c0) now).2 ops)
        (.signed c0) now').1).isUnauthorized = true := by
  have h0 : OldTokenDead c0 (flaskRefresh db (.signed c0) now).2 :=
    flaskRefresh_ok_dead db c0 now env hinv hok
  have h1 : OldTokenDead c0
      (applyOps (flaskRefresh db (.signed c0) now).2 ops) :=
    dead_applyOps c0 _ ops h0
  constructor
  · intro r hr hh
    have hrev := h1.1 r hr hh
    exact ⟨hrev, by simp [RefreshTokenRec.is_valid, hrev]⟩
  · exact refresh_fails_when_dead _ c0 now' h1.1

/-- Witness for C1: alice's live refresh token is rotated at time 10;
re-presenting it at time 20 (after no intervening requests, and after a
logout request for an unrelated garbage token) fails with 401. -/
theorem c1_refresh_rotation_witness :
    Inv aliceDB = true ∧
    (flaskRefresh aliceDB (.signed aliceRefreshClaims) 10).1 =
      .ok aliceRotatedEnv ∧
    ((flaskRefresh
        (applyOps (flaskRefresh aliceDB (.signed aliceRefreshClaims) 10).2 [])
        (.signed aliceRefreshClaims) 20).1).isUnauthorized = true ∧
    ((flaskRefresh
        (applyOps (flaskRefresh aliceDB (.signed aliceRefreshClaims) 10).2
          [.logout (.garbage "x") 15])
        (.signed aliceRefreshClaims) 20).1).isUnauthorized = true := by
  refine ⟨by decide, by decide, ?_, ?_⟩
  · exact (c1_refresh_rotation_revokes_old_token aliceDB aliceRefreshClaims
      10 aliceRotatedEnv (by decide) (by decide) [] 20).2
  · exact (c1_refresh_rotation_revokes_old_token aliceDB aliceRefreshClaims
      10 aliceRotatedEnv (by decide) (by decide)
      [.logout (.garbage "x") 15] 20).2

end AuthCore
